import Mathlib

/-!
Verification of the OAuth third-party authorization broker embedded in the
google-tag-manager-mcp-server repository.

The development shallowly embeds the broker's state and operations:

* `src/utils/sessionManager.ts` — the `SessionManager` class with its three
  module-level `Map` stores (`sessions`, `authStates`, `authorizationCodes`);
* `src/server/http.ts` — `handleAuthorization`, `handleTokenExchange`, the
  `/auth/callback` handler and the `/mcp` bearer-token check of
  `HttpServerTransport`;
* `src/server/controllers/OAuthController.ts` — `authorize` and `callback`
  with the controller's own `pkceStore`;
* `src/utils/getTagManagerClient.ts` — the credential-resolution priority
  chain used by every tool call.

Modelling conventions:

* A JavaScript `Map` is a `List (String × α)` in insertion order: `get` is
  the first entry with the key, `set` overwrites in place (JS `Map.set` on an
  existing key keeps its position), `delete` removes the key, and iteration
  (`for … of map.values()`) walks the list in order.
* Timestamps (`Date.now()`, `expiresAt`, …) are `Int` milliseconds and every
  operation takes the current time `now` explicitly.
* Values produced by `crypto.randomBytes`/`randomUUID` and results of
  network calls (the Google token exchange) are explicit parameters.
* Possibly-`undefined` strings from query/body destructuring are
  `Option String`; JS truthiness of a string is `none`/empty ↦ false, and JS
  truthiness of a number is `none`/`0` ↦ false.
-/

/-- JS string truthiness for a possibly-undefined string: `undefined`, `null`
and `""` are falsy. -/
def jsTruthyStr : Option String → Bool
  | none => false
  | some s => s ≠ ""


/-- JS number truthiness for a possibly-undefined number: `undefined` and `0`
are falsy. -/
def jsTruthyInt : Option Int → Bool
  | none => false
  | some n => n ≠ 0


/-- `Map.get`: the value at the first (unique) entry with the given key. -/
def mapGet {α : Type} (k : String) (l : List (String × α)) : Option α :=
  (l.find? (fun p => p.1 == k)).map (·.2)


/-- `Map.get` called with a possibly-undefined key: `get(undefined)` is
`undefined`. -/
def mapGet? {α : Type} (k : Option String) (l : List (String × α)) : Option α :=
  match k with
  | none => none
  | some k => mapGet k l


/-- `Map.set`: overwrite in place when the key exists (preserving insertion
order, as JS `Map.set` does — keys are unique, so replacing the first
occurrence suffices), otherwise append. -/
def mapSet {α : Type} (k : String) (v : α) :
    List (String × α) → List (String × α)
  | [] => [(k, v)]
  | p :: t => if p.1 == k then (k, v) :: t else p :: mapSet k v t


/-- `Map.delete`: remove every entry with the key (there is at most one). -/
def mapDelete {α : Type} (k : String) (l : List (String × α)) :
    List (String × α) :=
  l.filter (fun p => p.1 != k)


/-- Values of the map in insertion order (`for … of map.values()`). -/
def mapValues {α : Type} (l : List (String × α)) : List α :=
  l.map (·.2)


/-! ## Data model (`src/utils/sessionManager.ts`) -/


/-- `interface Session` of `sessionManager.ts`. -/
structure Session where
  sessionId : String
  mcpClientId : String
  mcpAccessToken : String
  mcpRefreshToken : Option String
  thirdPartyAccessToken : Option String := none
  thirdPartyRefreshToken : Option String := none
  thirdPartyExpiresAt : Option Int := none
  createdAt : Int
  expiresAt : Int
deriving Repr, DecidableEq


/-- `interface AuthState` of `sessionManager.ts` (the PKCE challenge record;
note the source stores the authorize request's `code_challenge` into the
field it names `codeVerifier`). -/
structure AuthState where
  state : String
  mcpClientId : String
  redirectUri : String
  originalState : Option String := none
  codeVerifier : Option String := none
  createdAt : Int
deriving Repr, DecidableEq


/-- `interface AuthorizationCode` of `sessionManager.ts`. -/
structure AuthorizationCode where
  code : String
  mcpClientId : String
  sessionId : String
  createdAt : Int
deriving Repr, DecidableEq


/-- The three module-level stores of `sessionManager.ts`. -/
structure Stores where
  sessions : List (String × Session) := []
  authStates : List (String × AuthState) := []
  authorizationCodes : List (String × AuthorizationCode) := []
deriving Repr, DecidableEq


/-- `SessionManager.SESSION_DURATION` (7 days in ms). -/
def SESSION_DURATION : Int := 7 * 24 * 60 * 60 * 1000


/-- `SessionManager.STATE_DURATION` (10 minutes in ms). -/
def STATE_DURATION : Int := 10 * 60 * 1000


/-- `SessionManager.CODE_DURATION` (10 minutes in ms). -/
def CODE_DURATION : Int := 10 * 60 * 1000


/-- `SessionManager.createSession`: the fresh random ids are parameters. -/
def createSession (sessions : List (String × Session))
    (mcpClientId sessionId accessTok refreshTok : String) (now : Int) :
    Session × List (String × Session) :=
  let s : Session :=
    { sessionId := sessionId
      mcpClientId := mcpClientId
      mcpAccessToken := accessTok
      mcpRefreshToken := some refreshTok
      createdAt := now
      expiresAt := now + SESSION_DURATION }
  (s, mapSet sessionId s sessions)


/-- `SessionManager.getSession`: evict and report absent when expired. -/
def getSession (sessions : List (String × Session)) (sessionId : String)
    (now : Int) : Option Session × List (String × Session) :=
  match mapGet sessionId sessions with
  | none => (none, sessions)
  | some s =>
      if now > s.expiresAt then (none, mapDelete sessionId sessions)
      else (some s, sessions)


/-- `SessionManager.getSessionByMcpToken`: scan values in insertion order for
the first session with the token; evict it and return `undefined` if that
session is expired. -/
def getSessionByMcpToken (sessions : List (String × Session))
    (mcpAccessToken : String) (now : Int) :
    Option Session × List (String × Session) :=
  match (mapValues sessions).find? (fun s => s.mcpAccessToken == mcpAccessToken) with
  | none => (none, sessions)
  | some s =>
      if now > s.expiresAt then (none, mapDelete s.sessionId sessions)
      else (some s, sessions)


/-- `SessionManager.getSessionByClientId`: same scan keyed on the owning
client id. -/
def getSessionByClientId (sessions : List (String × Session))
    (mcpClientId : String) (now : Int) :
    Option Session × List (String × Session) :=
  match (mapValues sessions).find? (fun s => s.mcpClientId == mcpClientId) with
  | none => (none, sessions)
  | some s =>
      if now > s.expiresAt then (none, mapDelete s.sessionId sessions)
      else (some s, sessions)


/-- `SessionManager.updateSessionWithThirdPartyTokens`: raw `sessions.get`
(no expiry check); `thirdPartyExpiresAt` is `expiresIn ? now + expiresIn*1000
: undefined`, so an omitted (or zero) `expiresIn` stores `undefined`. -/
def updateSessionWithThirdPartyTokens (sessions : List (String × Session))
    (sessionId accessToken : String) (refreshToken : Option String)
    (expiresIn : Option Int) (now : Int) :
    Bool × List (String × Session) :=
  match mapGet sessionId sessions with
  | none => (false, sessions)
  | some s =>
      let s' : Session :=
        { s with
            thirdPartyAccessToken := some accessToken
            thirdPartyRefreshToken := refreshToken
            thirdPartyExpiresAt :=
              if jsTruthyInt expiresIn then
                some (now + (expiresIn.getD 0) * 1000)
              else none }
      (true, mapSet sessionId s' sessions)


/-- `SessionManager.createAuthState`: the fresh random `state` token is a
parameter; the caller's `state` and `code_challenge` arrive already filtered
by the call sites. -/
def createAuthState (authStates : List (String × AuthState))
    (mcpClientId redirectUri : String) (originalState codeVerifier : Option String)
    (state : String) (now : Int) : String × List (String × AuthState) :=
  let a : AuthState :=
    { state := state
      mcpClientId := mcpClientId
      redirectUri := redirectUri
      originalState := originalState
      codeVerifier := codeVerifier
      createdAt := now }
  (state, mapSet state a authStates)


/-- `SessionManager.consumeAuthState`: delete on read whether expired or not;
expired reads report absent. -/
def consumeAuthState (authStates : List (String × AuthState)) (state : String)
    (now : Int) : Option AuthState × List (String × AuthState) :=
  match mapGet state authStates with
  | none => (none, authStates)
  | some a =>
      if now > a.createdAt + STATE_DURATION then (none, mapDelete state authStates)
      else (some a, mapDelete state authStates)


/-- `SessionManager.createAuthorizationCode`. -/
def createAuthorizationCode (codes : List (String × AuthorizationCode))
    (code mcpClientId sessionId : String) (now : Int) :
    List (String × AuthorizationCode) :=
  mapSet code
    { code := code, mcpClientId := mcpClientId, sessionId := sessionId
      createdAt := now } codes


/-- `SessionManager.consumeAuthorizationCode`: delete on read whether expired
or not; expired reads report absent. -/
def consumeAuthorizationCode (codes : List (String × AuthorizationCode))
    (code : String) (now : Int) :
    Option AuthorizationCode × List (String × AuthorizationCode) :=
  match mapGet code codes with
  | none => (none, codes)
  | some c =>
      if now > c.createdAt + CODE_DURATION then (none, mapDelete code codes)
      else (some c, mapDelete code codes)


/-- `consumeAuthorizationCode` applied to a possibly-undefined request field
(`authorizationCodes.get(undefined)` is `undefined`). -/
def consumeAuthorizationCode? (codes : List (String × AuthorizationCode))
    (code : Option String) (now : Int) :
    Option AuthorizationCode × List (String × AuthorizationCode) :=
  match code with
  | none => (none, codes)
  | some c => consumeAuthorizationCode codes c now


/-- `SessionManager.cleanup`: the periodic sweep over all three stores. -/
def cleanup (st : Stores) (now : Int) : Stores :=
  { sessions := st.sessions.filter (fun p => !(now > p.2.expiresAt))
    authStates := st.authStates.filter (fun p => !(now > p.2.createdAt + STATE_DURATION))
    authorizationCodes :=
      st.authorizationCodes.filter (fun p => !(now > p.2.createdAt + CODE_DURATION)) }


/-! ## HTTP broker layer (`src/server/http.ts`, `HttpServerTransport`) -/


/-- `interface RegisteredClient` of `http.ts`; `client_secret_expires_at` is
in seconds (the registration handler uses `Math.floor(Date.now()/1000)`). -/
structure RegisteredClient where
  clientId : String
  clientSecret : String
  redirectUris : List String
  grantTypes : List String
  responseTypes : List String
  scope : String
  clientIdIssuedAt : Int
  clientSecretExpiresAt : Int
  createdAt : Int
deriving Repr, DecidableEq


/-- Body of a `POST /oauth/token` (or `/auth/token`) request as destructured
by `handleTokenExchange`; absent form fields are `none`. -/
structure TokenRequest where
  code : Option String := none
  clientId : Option String := none
  clientSecret : Option String := none
  redirectUri : Option String := none
  grantType : Option String := none
  codeVerifier : Option String := none
deriving Repr, DecidableEq


/-- Outcome of `handleTokenExchange`: a 400 JSON error or the 200 token
response. -/
inductive TokenResult where
  | err (status : Nat) (error : String) (desc : String)
  | ok (accessToken : String) (refreshToken : Option String) (expiresIn : Int)
      (tokenType : String) (scope : String)
deriving Repr, DecidableEq


/-- `HttpServerTransport.handleTokenExchange`. `cfg` is whether the
`OAUTH_CLIENT_ID`/`OAUTH_CLIENT_SECRET` environment variables are set. The
destructured `redirect_uri` and `code_verifier` are never consulted. -/
def handleTokenExchange (cfg : Bool) (clients : List (String × RegisteredClient))
    (st : Stores) (req : TokenRequest) (now : Int) : TokenResult × Stores :=
  if !cfg then (.err 400 "invalid_client" "OAuth2 not configured", st)
  else
    match mapGet? req.clientId clients with
    | none => (.err 400 "invalid_client" "Client not found", st)
    | some rc =>
        if req.clientSecret ≠ some rc.clientSecret then
          (.err 400 "invalid_client" "Invalid client credentials", st)
        else if 0 < rc.clientSecretExpiresAt ∧
            rc.clientSecretExpiresAt < Int.fdiv now 1000 then
          (.err 400 "invalid_client" "Client credentials have expired", st)
        else if req.grantType ≠ some "authorization_code" then
          (.err 400 "unsupported_grant_type"
            "Only authorization_code grant type is supported", st)
        else
          match consumeAuthorizationCode? st.authorizationCodes req.code now with
          | (none, codes') =>
              (.err 400 "invalid_grant" "Invalid or expired authorization code",
                { st with authorizationCodes := codes' })
          | (some ac, codes') =>
              let st1 : Stores := { st with authorizationCodes := codes' }
              if req.clientId ≠ some ac.mcpClientId then
                (.err 400 "invalid_grant"
                  "Authorization code was issued to a different client", st1)
              else
                match getSession st1.sessions ac.sessionId now with
                | (none, sess') =>
                    (.err 400 "invalid_grant" "Session not found or expired",
                      { st1 with sessions := sess' })
                | (some s, sess') =>
                    let st2 : Stores := { st1 with sessions := sess' }
                    if !(jsTruthyStr s.thirdPartyAccessToken) then
                      (.err 400 "invalid_grant"
                        "Third-party authorization incomplete", st2)
                    else
                      let expiresIn : Int :=
                        if jsTruthyInt s.thirdPartyExpiresAt then
                          Int.fdiv ((s.thirdPartyExpiresAt.getD 0) - now) 1000
                        else 3600
                      (.ok s.mcpAccessToken s.mcpRefreshToken expiresIn
                        "Bearer" rc.scope, st2)


/-- Query of a `GET /oauth/authorize` (or `/auth`) request as read by
`handleAuthorization`. -/
structure AuthorizeRequest where
  clientId : Option String := none
  redirectUri : Option String := none
  state : Option String := none
  codeChallenge : Option String := none
  codeChallengeMethod : Option String := none
deriving Repr, DecidableEq


/-- Outcome of `handleAuthorization`: a 400 JSON error, a 302 to the upstream
IdP carrying the broker's internal state token, or the legacy no-client-id
branch. -/
inductive AuthorizeResult where
  | err (status : Nat) (error : String) (desc : String)
  | redirectUpstream (internalState : String)
  | legacy
deriving Repr, DecidableEq


/-- The fresh random values minted during `handleAuthorization`
(`crypto.randomBytes(32).toString('hex')`). -/
structure FreshAuth where
  sessionId : String
  mcpAccessToken : String
  mcpRefreshToken : String
  stateToken : String
deriving Repr, DecidableEq


/-- `HttpServerTransport.handleAuthorization`, MCP third-party branch: note
that `code_challenge_method` is read from the query but never validated, and
the `code_challenge` value is stored into the auth state's `codeVerifier`
field. -/
def handleAuthorization (cfg : Bool) (clients : List (String × RegisteredClient))
    (st : Stores) (req : AuthorizeRequest) (fresh : FreshAuth) (now : Int) :
    AuthorizeResult × Stores :=
  if !cfg then
    (.err 400 "OAuth2 not configured"
      "OAUTH_CLIENT_ID and OAUTH_CLIENT_SECRET environment variables must be set", st)
  else if jsTruthyStr req.clientId ∧ jsTruthyStr req.redirectUri then
    match mapGet? req.clientId clients with
    | none => (.err 400 "invalid_client" "Client not found", st)
    | some rc =>
        if !(rc.redirectUris.contains (req.redirectUri.getD "")) then
          (.err 400 "invalid_redirect_uri"
            "Redirect URI not registered for this client", st)
        else
          let created := createSession st.sessions (req.clientId.getD "")
            fresh.sessionId fresh.mcpAccessToken fresh.mcpRefreshToken now
          let st1 : Stores := { st with sessions := created.2 }
          let stored := createAuthState st1.authStates (req.clientId.getD "")
            (req.redirectUri.getD "")
            (if jsTruthyStr req.state then req.state else none)
            req.codeChallenge fresh.stateToken now
          (.redirectUpstream fresh.stateToken,
            { st1 with authStates := stored.2 })
  else (.legacy, st)


/-- The token payload returned by the upstream Google token exchange
(`oauth2Client.getToken`). -/
structure GoogleTokens where
  accessToken : String
  refreshToken : Option String := none
  expiryDate : Option Int := none
deriving Repr, DecidableEq


/-- Query of a `GET /auth/callback` request. -/
structure CallbackRequest where
  code : Option String := none
  error : Option String := none
  state : Option String := none
deriving Repr, DecidableEq


/-- Outcome of the `/auth/callback` handler: a JSON error, the 302 back to
the relying party (target URI, `code` query parameter, optional `state`
query parameter), or the legacy stateless branch. -/
inductive CallbackResult where
  | err (status : Nat) (msg : String)
  | redirect (uri : String) (codeParam : String) (stateParam : Option String)
  | legacy
deriving Repr, DecidableEq


/-- JS `x || undefined` on a possibly-undefined string. -/
def jsOrUndefined (o : Option String) : Option String :=
  if jsTruthyStr o then o else none


/-- The `/auth/callback` handler of `HttpServerTransport`, MCP third-party
branch. `exch` is the result of the upstream token exchange (`none` models a
thrown network error), `mcpAuthCode` the fresh random broker code. -/
def authCallback (st : Stores) (req : CallbackRequest)
    (exch : Option GoogleTokens) (mcpAuthCode : String) (now : Int) :
    CallbackResult × Stores :=
  if jsTruthyStr req.error then
    (.err 400 "OAuth2 authorization failed", st)
  else if !(jsTruthyStr req.code) then
    (.err 400 "Authorization code missing", st)
  else if jsTruthyStr req.state then
    match consumeAuthState st.authStates (req.state.getD "") now with
    | (none, states') =>
        (.err 500 "Invalid or expired authorization state",
          { st with authStates := states' })
    | (some a, states') =>
        let st1 : Stores := { st with authStates := states' }
        match exch with
        | none => (.err 500 "upstream token exchange failed", st1)
        | some gt =>
            match getSessionByClientId st1.sessions a.mcpClientId now with
            | (none, sess') =>
                (.err 500 "Session not found", { st1 with sessions := sess' })
            | (some s, sess') =>
                let expiresIn : Int :=
                  if jsTruthyInt gt.expiryDate then
                    Int.fdiv ((gt.expiryDate.getD 0) - now) 1000
                  else 3600
                let upd := updateSessionWithThirdPartyTokens sess'
                  s.sessionId gt.accessToken (jsOrUndefined gt.refreshToken)
                  (some expiresIn) now
                let codes' := createAuthorizationCode st1.authorizationCodes
                  mcpAuthCode a.mcpClientId s.sessionId now
                (.redirect a.redirectUri mcpAuthCode
                    (if jsTruthyStr a.originalState then a.originalState else none),
                  { st1 with sessions := upd.2, authorizationCodes := codes' })
  else (.legacy, st)


/-! ## Alternative controller (`src/server/controllers/OAuthController.ts`) -/


/-- `interface PkceData` of `OAuthController.ts`. -/
structure PkceData where
  codeChallenge : String
  codeChallengeMethod : String
  clientId : String
  redirectUri : String
  expiresAt : Int
  createdAt : Int
deriving Repr, DecidableEq


/-- Query of a `GET /oauth/authorize` request as read by
`OAuthController.authorize`. -/
structure OCAuthorizeRequest where
  clientId : Option String := none
  redirectUri : Option String := none
  state : Option String := none
  codeChallenge : Option String := none
  codeChallengeMethod : Option String := none
  resource : Option String := none
deriving Repr, DecidableEq


/-- Outcome of `OAuthController.authorize`: a 400 JSON error, or a 302 to
Google carrying `stateParam` (the original-or-fresh state used as the PKCE
store key). -/
inductive OCAuthorizeResult where
  | err (status : Nat) (error : String) (desc : String)
  | redirectGoogle (stateParam : String)
deriving Repr, DecidableEq


/-- `OAuthController.authorize`: rejects a non-S256 PKCE method with error
code `invalid_request`, then stores the challenge keyed by the caller's state
(or a fresh UUID) with a 10-minute expiry and redirects to Google. -/
def ocAuthorize (pkce : List (String × PkceData)) (req : OCAuthorizeRequest)
    (expectedResource freshUUID : String) (now : Int) :
    OCAuthorizeResult × List (String × PkceData) :=
  if !(jsTruthyStr req.clientId) ∨ !(jsTruthyStr req.redirectUri) ∨
      !(jsTruthyStr req.codeChallenge) ∨ !(jsTruthyStr req.codeChallengeMethod) then
    (.err 400 "invalid_request" "Missing required parameters", pkce)
  else if jsTruthyStr req.resource ∧ req.resource ≠ some expectedResource then
    (.err 400 "invalid_request" "Invalid resource parameter", pkce)
  else if req.codeChallengeMethod ≠ some "S256" then
    (.err 400 "invalid_request" "Unsupported code challenge method", pkce)
  else
    let stateParam := if jsTruthyStr req.state then req.state.getD "" else freshUUID
    let entry : PkceData :=
      { codeChallenge := req.codeChallenge.getD ""
        codeChallengeMethod := req.codeChallengeMethod.getD ""
        clientId := req.clientId.getD ""
        redirectUri := req.redirectUri.getD ""
        expiresAt := now + 10 * 60 * 1000
        createdAt := now }
    (.redirectGoogle stateParam, mapSet stateParam entry pkce)


/-- Outcome of `OAuthController.callback`: a JSON error, or the 302 to the
stored `redirect_uri` carrying `code` and `state` query parameters. -/
inductive OCCallbackResult where
  | err (status : Nat) (msg : String)
  | redirect (uri : String) (codeParam : String) (stateParam : String)
deriving Repr, DecidableEq


/-- `OAuthController.callback`: after a successful upstream exchange it
redirects to the stored client `redirect_uri` with the UPSTREAM `code` and
the request's `state` (the broker-visible state key) interpolated verbatim
(`?code=CODE&state=STATE`); no broker-local authorization code exists in
this controller. `exchangeOk` is whether the Google token exchange
succeeded. -/
def ocCallback (pkce : List (String × PkceData)) (code state : Option String)
    (exchangeOk : Bool) (now : Int) :
    OCCallbackResult × List (String × PkceData) :=
  if !(jsTruthyStr code) ∨ !(jsTruthyStr state) then
    (.err 400 "Missing authorization code or state", pkce)
  else
    match mapGet? state pkce with
    | none => (.err 400 "Invalid state parameter", pkce)
    | some d =>
        if now > d.expiresAt then
          (.err 400 "Authorization request expired",
            mapDelete (state.getD "") pkce)
        else if !exchangeOk then
          (.err 400 "Token exchange failed", pkce)
        else
          (.redirect d.redirectUri (code.getD "") (state.getD ""),
            mapDelete (state.getD "") pkce)


/-! ## Credential resolution for downstream tool calls
(`src/server/http.ts` `POST /mcp` + `src/utils/getTagManagerClient.ts`) -/


/-- The credential a downstream `/mcp` tool call ends up using. -/
inductive ResolveResult where
  | unauthorized
  | upstreamCred (accessToken : String) (refreshToken : Option String)
  | directMcpToken (accessToken : String)
deriving Repr, DecidableEq


/-- Composition of the `/mcp` route's bearer check with
`getTagManagerClient`: the route returns 401 `unauthorized` when
`getSessionByMcpToken` finds no (unexpired) session; otherwise
`getTagManagerClient` repeats the same lookup and uses the session's
third-party Google tokens when `session.thirdPartyAccessToken` is truthy,
and falls back to using the MCP bearer token itself as the Google access
token otherwise (the source's 'No session found, using MCP token directly'
backward-compatibility branch, which also fires when the session exists but
carries no third-party token). -/
def resolveCredential (sessions : List (String × Session)) (bearer : String)
    (now : Int) : ResolveResult × List (String × Session) :=
  match getSessionByMcpToken sessions bearer now with
  | (none, sess') => (.unauthorized, sess')
  | (some s, sess') =>
      if jsTruthyStr s.thirdPartyAccessToken then
        (.upstreamCred (s.thirdPartyAccessToken.getD "") s.thirdPartyRefreshToken,
          sess')
      else (.directMcpToken bearer, sess')


/-! ## Auxiliary map lemmas -/




/-- A registered relying-party client (secret expiry 0 disables the
client-expiry check, as in the source when `client_secret_expires_at` is 0). -/
def cClient : RegisteredClient :=
  { clientId := "c1", clientSecret := "sec", redirectUris := ["https://rp/cb"]
    grantTypes := ["authorization_code"], responseTypes := ["code"]
    scope := "sc", clientIdIssuedAt := 0, clientSecretExpiresAt := 0
    createdAt := 0 }


/-- A session with upstream Google tokens already bound. -/
def cSessBound : Session :=
  { sessionId := "sid1", mcpClientId := "c1", mcpAccessToken := "atok"
    mcpRefreshToken := some "rtok", thirdPartyAccessToken := some "gat"
    thirdPartyRefreshToken := some "grt", thirdPartyExpiresAt := some 5000000
    createdAt := 0, expiresAt := 1000000000 }


/-- The same session before any upstream tokens were bound. -/
def cSessUnbound : Session :=
  { cSessBound with
      thirdPartyAccessToken := none
      thirdPartyRefreshToken := none
      thirdPartyExpiresAt := none }


/-- An expired session for client c1 (inserted first). -/
def cSessExpired : Session :=
  { cSessBound with sessionId := "sA", mcpAccessToken := "atokA", expiresAt := 10 }


/-- A live session for client c1 (inserted second). -/
def cSessLive : Session :=
  { cSessBound with sessionId := "sB", mcpAccessToken := "atokB", expiresAt := 1000000 }








/-- An auth state created at time 0, for witnesses. -/
def cAuthState0 : AuthState :=
  { state := "stok", mcpClientId := "c1", redirectUri := "https://rp/cb"
    originalState := some "orig", codeVerifier := some "chal", createdAt := 0 }


/-- An authorization code created at time 0, for witnesses. -/
def cAuthCode0 : AuthorizationCode :=
  { code := "code1", mcpClientId := "c1", sessionId := "sid1", createdAt := 0 }




/-- Stores holding one bound session and one authorization code, for
witnesses. -/
def cStores1 : Stores :=
  { sessions := [("sid1", cSessBound)]
    authStates := []
    authorizationCodes := [("code1", cAuthCode0)] }


/-- A well-formed token request by client c1 redeeming code1. -/
def cTokReq : TokenRequest :=
  { code := some "code1", clientId := some "c1", clientSecret := some "sec"
    grantType := some "authorization_code" }




/-- A second registered client used for the mismatched redemption. -/
def cClient2 : RegisteredClient :=
  { cClient with clientId := "c2", clientSecret := "sec2" }


/-- The mismatched token request: client c2 presents its own valid
credentials but redeems code1, which was issued to c1. -/
def cTokReqWrong : TokenRequest :=
  { code := some "code1", clientId := some "c2", clientSecret := some "sec2"
    grantType := some "authorization_code" }








/-- The empty broker state. -/
def cStoresEmpty : Stores := {}


/-- An authorize request using `code_challenge_method=plain`. -/
def cAreqPlain : AuthorizeRequest :=
  { clientId := some "c1", redirectUri := some "https://rp/cb"
    state := some "orig", codeChallenge := some "chal"
    codeChallengeMethod := some "plain" }


/-- Fresh random values minted during the witnessed authorize call. -/
def cFresh : FreshAuth :=
  { sessionId := "s2", mcpAccessToken := "a2", mcpRefreshToken := "r2"
    stateToken := "stok" }


/-- An `OAuthController.authorize` request with `code_challenge_method=plain`. -/
def cOCReqPlain : OCAuthorizeRequest :=
  { clientId := some "c1", redirectUri := some "https://rp/cb"
    state := some "st1", codeChallenge := some "chal"
    codeChallengeMethod := some "plain" }




/-- A google-token payload for witnesses. -/
def cGT : GoogleTokens :=
  { accessToken := "gat", refreshToken := some "grt", expiryDate := some 7200000 }


/-- A callback request carrying the upstream code and the broker state. -/
def cCbReq : CallbackRequest :=
  { code := some "gcode", state := some "stok" }


/-- Broker state before the witnessed callback: one unbound session and the
pending auth state. -/
def cStCB : Stores :=
  { sessions := [("sid1", cSessUnbound)]
    authStates := [("stok", cAuthState0)]
    authorizationCodes := [] }


/-- A PKCE record stored by `OAuthController.authorize`, for the C4
counterexample. -/
def cPkce0 : PkceData :=
  { codeChallenge := "chal", codeChallengeMethod := "S256", clientId := "c1"
    redirectUri := "https://rp/cb", expiresAt := 600000, createdAt := 0 }


/-- The earlier-created of two live sessions for client c1. -/
def cSessFirst : Session :=
  { cSessUnbound with sessionId := "sX", mcpAccessToken := "atokX" }


/-- The later-created of two live sessions for client c1. -/
def cSessSecond : Session :=
  { cSessUnbound with sessionId := "sY", mcpAccessToken := "atokY" }


/-- Broker state with two live sessions for c1 (two authorize calls) and one
pending auth state. -/
def cStTwo : Stores :=
  { sessions := [("sX", cSessFirst), ("sY", cSessSecond)]
    authStates := [("stok", cAuthState0)]
    authorizationCodes := [] }


/-! ## Theorems -/

theorem mapGet_mapDelete_same {α : Type} (k : String) (l : List (String × α)) :
    mapGet k (mapDelete k l) = none := by
  induction l with
  | nil => rfl
  | cons p t ih =>
      by_cases h : p.1 = k
      · simp [mapGet, mapDelete, h]
      · simp [mapGet, mapDelete, List.find?, h]


theorem mapGet_mapSet_same {α : Type} (k : String) (v : α)
    (l : List (String × α)) : mapGet k (mapSet k v l) = some v := by
  induction l with
  | nil => simp [mapGet, mapSet, List.find?]
  | cons p t ih =>
      by_cases hp : p.1 = k
      · simp [mapGet, mapSet, List.find?, hp]
      · have hb : (p.1 == k) = false := by simp [hp]
        simp [mapGet, mapSet, List.find?, hb] at ih ⊢
        exact ih


theorem mapSet_mapSet_same {α : Type} (k : String) (v w : α)
    (l : List (String × α)) : mapSet k w (mapSet k v l) = mapSet k w l := by
  induction l with
  | nil => simp [mapSet]
  | cons p t ih =>
      by_cases hp : p.1 = k
      · simp [mapSet, hp]
      · simp [mapSet, hp, ih]


/-- Counterexample to claim C5: for an existing session, binding upstream
tokens with `expires_in_seconds` omitted stores NO absolute expiry
(`thirdPartyExpiresAt` becomes `undefined`), not an expiry 3600 seconds from
now as the claim states; the 3600-second default lives in the callback
caller, not in the bind operation. -/
theorem claim_C5_counterexample :
    (mapGet "sid1"
        (updateSessionWithThirdPartyTokens [("sid1", cSessUnbound)]
          "sid1" "gat" none none 500).2).map (·.thirdPartyExpiresAt) =
      some none ∧
    (some (none : Option Int) ≠ some (some (500 + 3600 * 1000 : Int))) := by
  constructor
  · rfl
  · simp


/-- C5 (amended): for an existing session the bind stores
`now + expires_in*1000` when a nonzero `expires_in` is supplied and stores no
expiry when it is omitted; it returns ok exactly for sessions present in the
map and not-found otherwise; and re-binding the same values at the same time
is idempotent. -/
theorem claim_C5 :
    (∀ (sessions : List (String × Session)) (sid a : String)
        (r : Option String) (e now : Int) (s : Session),
        mapGet sid sessions = some s → e ≠ 0 →
        updateSessionWithThirdPartyTokens sessions sid a r (some e) now =
          (true, mapSet sid
            { s with
                thirdPartyAccessToken := some a
                thirdPartyRefreshToken := r
                thirdPartyExpiresAt := some (now + e * 1000) } sessions)) ∧
    (∀ (sessions : List (String × Session)) (sid a : String)
        (r : Option String) (now : Int) (s : Session),
        mapGet sid sessions = some s →
        updateSessionWithThirdPartyTokens sessions sid a r none now =
          (true, mapSet sid
            { s with
                thirdPartyAccessToken := some a
                thirdPartyRefreshToken := r
                thirdPartyExpiresAt := none } sessions)) ∧
    (∀ (sessions : List (String × Session)) (sid a : String)
        (r : Option String) (e : Option Int) (now : Int),
        mapGet sid sessions = none →
        updateSessionWithThirdPartyTokens sessions sid a r e now =
          (false, sessions)) ∧
    (∀ (sessions : List (String × Session)) (sid a : String)
        (r : Option String) (e : Option Int) (now : Int),
        updateSessionWithThirdPartyTokens
          (updateSessionWithThirdPartyTokens sessions sid a r e now).2
          sid a r e now =
        updateSessionWithThirdPartyTokens sessions sid a r e now) := by
  refine ⟨?_, ?_, ?_, ?_⟩
  · intro sessions sid a r e now s h he
    simp [updateSessionWithThirdPartyTokens, h, jsTruthyInt, he]
  · intro sessions sid a r now s h
    simp [updateSessionWithThirdPartyTokens, h, jsTruthyInt]
  · intro sessions sid a r e now h
    simp [updateSessionWithThirdPartyTokens, h]
  · intro sessions sid a r e now
    cases h : mapGet sid sessions with
    | none => simp [updateSessionWithThirdPartyTokens, h]
    | some s =>
        simp only [updateSessionWithThirdPartyTokens, h]
        rw [mapGet_mapSet_same]
        simp [mapSet_mapSet_same]


/-- Witness for C5 at concrete inputs: binding with `expires_in = 3600` at
time 500 on an existing session succeeds and stores expiry `500 + 3600*1000`;
binding on an absent session reports not-found. -/
theorem claim_C5_witness :
    updateSessionWithThirdPartyTokens [("sid1", cSessUnbound)] "sid1" "gat"
        (some "grt") (some 3600) 500 =
      (true, mapSet "sid1"
        { cSessUnbound with
            thirdPartyAccessToken := some "gat"
            thirdPartyRefreshToken := some "grt"
            thirdPartyExpiresAt := some (500 + 3600 * 1000) }
        [("sid1", cSessUnbound)]) ∧
    updateSessionWithThirdPartyTokens [] "sid1" "gat" (some "grt")
        (some 3600) 500 = (false, []) := by
  constructor
  · exact claim_C5.1 [("sid1", cSessUnbound)] "sid1" "gat" (some "grt")
      3600 500 cSessUnbound (by decide) (by decide)
  · exact claim_C5.2.2.1 [] "sid1" "gat" (some "grt") (some 3600) 500
      (by decide)


/-- C6: each of the three session getters evicts a found expired session and
reports it absent, and consequently no getter ever returns a session whose
`expiresAt` is earlier than the current time. -/
theorem claim_C6 :
    (∀ (sessions : List (String × Session)) (sid : String) (now : Int)
        (s : Session), mapGet sid sessions = some s → now > s.expiresAt →
        getSession sessions sid now = (none, mapDelete sid sessions)) ∧
    (∀ (sessions : List (String × Session)) (tok : String) (now : Int)
        (s : Session),
        (mapValues sessions).find? (fun x => x.mcpAccessToken == tok) = some s →
        now > s.expiresAt →
        getSessionByMcpToken sessions tok now =
          (none, mapDelete s.sessionId sessions)) ∧
    (∀ (sessions : List (String × Session)) (cid : String) (now : Int)
        (s : Session),
        (mapValues sessions).find? (fun x => x.mcpClientId == cid) = some s →
        now > s.expiresAt →
        getSessionByClientId sessions cid now =
          (none, mapDelete s.sessionId sessions)) ∧
    (∀ (sessions : List (String × Session)) (sid : String) (now : Int)
        (s : Session),
        (getSession sessions sid now).1 = some s → s.expiresAt ≥ now) ∧
    (∀ (sessions : List (String × Session)) (tok : String) (now : Int)
        (s : Session),
        (getSessionByMcpToken sessions tok now).1 = some s →
        s.expiresAt ≥ now) ∧
    (∀ (sessions : List (String × Session)) (cid : String) (now : Int)
        (s : Session),
        (getSessionByClientId sessions cid now).1 = some s →
        s.expiresAt ≥ now) := by
  refine ⟨?_, ?_, ?_, ?_, ?_, ?_⟩
  · intro sessions sid now s h hexp
    simp [getSession, h, hexp]
  · intro sessions tok now s h hexp
    simp [getSessionByMcpToken, h, hexp]
  · intro sessions cid now s h hexp
    simp [getSessionByClientId, h, hexp]
  · intro sessions sid now s h
    unfold getSession at h
    cases hm : mapGet sid sessions with
    | none => simp [hm] at h
    | some t =>
        simp only [hm] at h
        by_cases he : now > t.expiresAt
        · simp [he] at h
        · simp [he] at h
          subst h
          omega
  · intro sessions tok now s h
    unfold getSessionByMcpToken at h
    cases hm : (mapValues sessions).find? (fun x => x.mcpAccessToken == tok) with
    | none => simp [hm] at h
    | some t =>
        simp only [hm] at h
        by_cases he : now > t.expiresAt
        · simp [he] at h
        · simp [he] at h
          subst h
          omega
  · intro sessions cid now s h
    unfold getSessionByClientId at h
    cases hm : (mapValues sessions).find? (fun x => x.mcpClientId == cid) with
    | none => simp [hm] at h
    | some t =>
        simp only [hm] at h
        by_cases he : now > t.expiresAt
        · simp [he] at h
        · simp [he] at h
          subst h
          omega


/-- Witness for C6 at concrete inputs: an expired session (expiresAt 10,
now 100) is evicted and reported absent by all three getters, and a live
session returned by `getSession` satisfies `expiresAt ≥ now`. -/
theorem claim_C6_witness :
    getSession [("sA", cSessExpired)] "sA" 100 =
      (none, mapDelete "sA" [("sA", cSessExpired)]) ∧
    getSessionByMcpToken [("sA", cSessExpired)] "atokA" 100 =
      (none, mapDelete "sA" [("sA", cSessExpired)]) ∧
    getSessionByClientId [("sA", cSessExpired)] "c1" 100 =
      (none, mapDelete "sA" [("sA", cSessExpired)]) ∧
    cSessLive.expiresAt ≥ (100 : Int) := by
  refine ⟨?_, ?_, ?_, ?_⟩
  · exact claim_C6.1 [("sA", cSessExpired)] "sA" 100 cSessExpired
      (by decide) (by decide)
  · exact claim_C6.2.1 [("sA", cSessExpired)] "atokA" 100 cSessExpired
      (by decide) (by decide)
  · exact claim_C6.2.2.1 [("sA", cSessExpired)] "c1" 100 cSessExpired
      (by decide) (by decide)
  · exact claim_C6.2.2.2.1 [("sB", cSessLive)] "sB" 100 cSessLive (by decide)


/-- C7: a stored auth state (PKCE challenge) or authorization code created at
time T reads as absent on any consume performed strictly after T plus the
10-minute TTL, independently of the periodic sweep (the read path itself
deletes the expired entry), and both TTL constants are 10 minutes. -/
theorem claim_C7 :
    (∀ (states : List (String × AuthState)) (stok : String) (now : Int)
        (a : AuthState), mapGet stok states = some a →
        now > a.createdAt + STATE_DURATION →
        consumeAuthState states stok now = (none, mapDelete stok states)) ∧
    (∀ (codes : List (String × AuthorizationCode)) (c : String) (now : Int)
        (ac : AuthorizationCode), mapGet c codes = some ac →
        now > ac.createdAt + CODE_DURATION →
        consumeAuthorizationCode codes c now = (none, mapDelete c codes)) ∧
    STATE_DURATION = 10 * 60 * 1000 ∧ CODE_DURATION = 10 * 60 * 1000 := by
  refine ⟨?_, ?_, rfl, rfl⟩
  · intro states stok now a h hexp
    simp [consumeAuthState, h, hexp]
  · intro codes c now ac h hexp
    simp [consumeAuthorizationCode, h, hexp]


/-- Witness for C7 at concrete inputs: an auth state and an authorization
code created at time 0 are reported absent (and deleted) by a consume at
time 600001 = TTL + 1 ms. -/
theorem claim_C7_witness :
    consumeAuthState [("stok", cAuthState0)] "stok" 600001 =
      (none, mapDelete "stok" [("stok", cAuthState0)]) ∧
    consumeAuthorizationCode [("code1", cAuthCode0)] "code1" 600001 =
      (none, mapDelete "code1" [("code1", cAuthCode0)]) := by
  constructor
  · exact claim_C7.1 [("stok", cAuthState0)] "stok" 600001 cAuthState0
      (by decide) (by decide)
  · exact claim_C7.2.1 [("code1", cAuthCode0)] "code1" 600001 cAuthCode0
      (by decide) (by decide)


/-- C1: a token-endpoint redemption that satisfies all validity checks
(registered client, matching secret, unexpired registration,
`authorization_code` grant, known unexpired code issued to this client,
live session with bound upstream tokens) succeeds and removes the code from
the store, and every subsequent well-formed redemption of the same code —
at any later time, by any registered client with correct credentials —
fails with error `invalid_grant`. -/
theorem claim_C1 :
    ∀ (clients : List (String × RegisteredClient)) (st : Stores)
      (req : TokenRequest) (now : Int) (rc : RegisteredClient)
      (cid code : String) (ac : AuthorizationCode) (s : Session),
      req.clientId = some cid →
      mapGet cid clients = some rc →
      req.clientSecret = some rc.clientSecret →
      ¬(0 < rc.clientSecretExpiresAt ∧
          rc.clientSecretExpiresAt < Int.fdiv now 1000) →
      req.grantType = some "authorization_code" →
      req.code = some code →
      mapGet code st.authorizationCodes = some ac →
      ¬(now > ac.createdAt + CODE_DURATION) →
      ac.mcpClientId = cid →
      mapGet ac.sessionId st.sessions = some s →
      ¬(now > s.expiresAt) →
      jsTruthyStr s.thirdPartyAccessToken →
      (∃ e : Int,
        handleTokenExchange true clients st req now =
          (.ok s.mcpAccessToken s.mcpRefreshToken e "Bearer" rc.scope,
            { st with
                authorizationCodes :=
                  mapDelete code st.authorizationCodes })) ∧
      (∀ (req2 : TokenRequest) (now2 : Int) (cid2 : String)
          (rc2 : RegisteredClient),
        req2.clientId = some cid2 →
        mapGet cid2 clients = some rc2 →
        req2.clientSecret = some rc2.clientSecret →
        ¬(0 < rc2.clientSecretExpiresAt ∧
            rc2.clientSecretExpiresAt < Int.fdiv now2 1000) →
        req2.grantType = some "authorization_code" →
        req2.code = some code →
        (handleTokenExchange true clients
            { st with
                authorizationCodes := mapDelete code st.authorizationCodes }
            req2 now2).1 =
          .err 400 "invalid_grant" "Invalid or expired authorization code") := by
  intro clients st req now rc cid code ac s hcid hrc hsec hnexp hgt hcode hac
    hfr hmatch hsess hsexp hthird
  constructor
  · refine ⟨if jsTruthyInt s.thirdPartyExpiresAt then
        Int.fdiv ((s.thirdPartyExpiresAt.getD 0) - now) 1000 else 3600, ?_⟩
    simp [handleTokenExchange, mapGet?, consumeAuthorizationCode?,
      consumeAuthorizationCode, getSession, hcid, hrc, hsec, hnexp, hgt,
      hcode, hac, hfr, hmatch, hsess, hsexp, hthird]
  · intro req2 now2 cid2 rc2 h1 h2 h3 h4 h5 h6
    simp [handleTokenExchange, mapGet?, consumeAuthorizationCode?,
      consumeAuthorizationCode, h1, h2, h3, h4, h5, h6,
      mapGet_mapDelete_same]


/-- Witness for C1 at concrete inputs: redeeming code1 once succeeds and a
second redemption with the same correct credentials fails `invalid_grant`. -/
theorem claim_C1_witness :
    (∃ e : Int,
      handleTokenExchange true [("c1", cClient)] cStores1 cTokReq 1000 =
        (.ok cSessBound.mcpAccessToken cSessBound.mcpRefreshToken e "Bearer"
            cClient.scope,
          { cStores1 with
              authorizationCodes :=
                mapDelete "code1" cStores1.authorizationCodes })) ∧
    (handleTokenExchange true [("c1", cClient)]
        { cStores1 with
            authorizationCodes := mapDelete "code1" cStores1.authorizationCodes }
        cTokReq 2000).1 =
      .err 400 "invalid_grant" "Invalid or expired authorization code" := by
  have h := claim_C1 [("c1", cClient)] cStores1 cTokReq 1000 cClient "c1"
    "code1" cAuthCode0 cSessBound (by decide) (by decide) (by decide)
    (by decide) (by decide) (by decide) (by decide) (by decide) (by decide)
    (by decide) (by decide) (by decide)
  exact ⟨h.1, h.2 cTokReq 2000 "c1" cClient (by decide) (by decide)
    (by decide) (by decide) (by decide) (by decide)⟩


/-- C8: a token request by a registered client with correct credentials but
a `client_id` different from the one the (valid, unexpired) code was issued
to fails `invalid_grant` — yet the code has already been removed from the
store by the consume, so every later well-formed redemption of the same
code, including one by the client it was issued to, also fails
`invalid_grant`. -/
theorem claim_C8 :
    ∀ (clients : List (String × RegisteredClient)) (st : Stores)
      (req : TokenRequest) (now : Int) (rc : RegisteredClient)
      (cid code : String) (ac : AuthorizationCode),
      req.clientId = some cid →
      mapGet cid clients = some rc →
      req.clientSecret = some rc.clientSecret →
      ¬(0 < rc.clientSecretExpiresAt ∧
          rc.clientSecretExpiresAt < Int.fdiv now 1000) →
      req.grantType = some "authorization_code" →
      req.code = some code →
      mapGet code st.authorizationCodes = some ac →
      ¬(now > ac.createdAt + CODE_DURATION) →
      ac.mcpClientId ≠ cid →
      handleTokenExchange true clients st req now =
        (.err 400 "invalid_grant"
            "Authorization code was issued to a different client",
          { st with
              authorizationCodes := mapDelete code st.authorizationCodes }) ∧
      (∀ (req2 : TokenRequest) (now2 : Int) (cid2 : String)
          (rc2 : RegisteredClient),
        req2.clientId = some cid2 →
        mapGet cid2 clients = some rc2 →
        req2.clientSecret = some rc2.clientSecret →
        ¬(0 < rc2.clientSecretExpiresAt ∧
            rc2.clientSecretExpiresAt < Int.fdiv now2 1000) →
        req2.grantType = some "authorization_code" →
        req2.code = some code →
        (handleTokenExchange true clients
            { st with
                authorizationCodes := mapDelete code st.authorizationCodes }
            req2 now2).1 =
          .err 400 "invalid_grant" "Invalid or expired authorization code") := by
  intro clients st req now rc cid code ac hcid hrc hsec hnexp hgt hcode hac
    hfr hneq
  constructor
  · have hne : req.clientId ≠ some ac.mcpClientId := by
      rw [hcid]
      intro h
      exact hneq (Option.some.inj h).symm
    simp only [handleTokenExchange, mapGet?, consumeAuthorizationCode?,
      consumeAuthorizationCode, hcid, hrc, hsec, hnexp, hgt, hcode, hac,
      hfr, hne]
    simp [hnexp]
    intro h
    exact absurd h.symm hneq
  · intro req2 now2 cid2 rc2 h1 h2 h3 h4 h5 h6
    simp [handleTokenExchange, mapGet?, consumeAuthorizationCode?,
      consumeAuthorizationCode, h1, h2, h3, h4, h5, h6,
      mapGet_mapDelete_same]


/-- Witness for C8 at concrete inputs: client c2 redeems c1's code1 —
`invalid_grant`, code consumed; then c1 itself redeems code1 with correct
credentials — `invalid_grant` again. -/
theorem claim_C8_witness :
    handleTokenExchange true [("c1", cClient), ("c2", cClient2)] cStores1
        cTokReqWrong 1000 =
      (.err 400 "invalid_grant"
          "Authorization code was issued to a different client",
        { cStores1 with
            authorizationCodes :=
              mapDelete "code1" cStores1.authorizationCodes }) ∧
    (handleTokenExchange true [("c1", cClient), ("c2", cClient2)]
        { cStores1 with
            authorizationCodes := mapDelete "code1" cStores1.authorizationCodes }
        cTokReq 2000).1 =
      .err 400 "invalid_grant" "Invalid or expired authorization code" := by
  have h := claim_C8 [("c1", cClient), ("c2", cClient2)] cStores1 cTokReqWrong
    1000 cClient2 "c2" "code1" cAuthCode0 (by decide) (by decide) (by decide)
    (by decide) (by decide) (by decide) (by decide) (by decide) (by decide)
  exact ⟨h.1, h.2 cTokReq 2000 "c1" cClient (by decide) (by decide)
    (by decide) (by decide) (by decide) (by decide)⟩


/-- C9: the token endpoint's entire outcome — success or failure, the tokens
returned, and the store mutations — is identical for any two values of the
`code_verifier` body field (including its absence), and is likewise
independent of the stored challenge records: the `authStates` store (which
holds the `code_challenge` captured at authorize time) is passed through
untouched and never consulted. -/
theorem claim_C9 :
    ∀ (cfg : Bool) (clients : List (String × RegisteredClient)) (st : Stores)
      (req : TokenRequest) (now : Int) (v1 v2 : Option String)
      (A B : List (String × AuthState)),
      handleTokenExchange cfg clients { st with authStates := A }
          { req with codeVerifier := v1 } now =
        ((handleTokenExchange cfg clients { st with authStates := B }
            { req with codeVerifier := v2 } now).1,
          { (handleTokenExchange cfg clients { st with authStates := B }
              { req with codeVerifier := v2 } now).2 with authStates := A }) := by
  intro cfg clients st req now v1 v2 A B
  cases cfg with
  | false => rfl
  | true =>
      show handleTokenExchange true clients ⟨st.sessions, A, st.authorizationCodes⟩
          ⟨req.code, req.clientId, req.clientSecret, req.redirectUri,
            req.grantType, v1⟩ now = _
      unfold handleTokenExchange
      cases hc : mapGet? req.clientId clients with
      | none => simp [hc]
      | some rc =>
          simp only [hc, Bool.not_true, Bool.false_eq_true, if_false]
          by_cases hs : req.clientSecret ≠ some rc.clientSecret
          · simp [hs]
          · simp only [hs, if_false, if_neg hs]
            by_cases he : 0 < rc.clientSecretExpiresAt ∧
                rc.clientSecretExpiresAt < Int.fdiv now 1000
            · simp [he]
            · simp only [if_neg he]
              by_cases hg : req.grantType ≠ some "authorization_code"
              · simp [hg]
              · simp only [if_neg hg]
                rcases hcon : consumeAuthorizationCode? st.authorizationCodes
                    req.code now with ⟨o, codes2⟩
                cases o with
                | none => simp [hcon]
                | some ac =>
                    simp only [hcon]
                    by_cases hid : req.clientId ≠ some ac.mcpClientId
                    · simp [hid]
                    · simp only [if_neg hid]
                      rcases hget : getSession st.sessions ac.sessionId now
                        with ⟨os, sess2⟩
                      cases os with
                      | none => simp [hget]
                      | some s =>
                          simp only [hget]
                          by_cases ht : jsTruthyStr s.thirdPartyAccessToken
                          · simp [ht]
                          · simp [ht]


/-- Counterexample to claim C2: with a live session that has no upstream
tokens bound yet (the state before `bindUpstreamTokens`), resolving the
session's broker access token does NOT yield `unauthorized`; the code falls
back to using the broker token itself as the upstream credential. -/
theorem claim_C2_counterexample :
    resolveCredential [("sid1", cSessUnbound)] "atok" 0 =
      (.directMcpToken "atok", [("sid1", cSessUnbound)]) ∧
    ResolveResult.directMcpToken "atok" ≠ ResolveResult.unauthorized := by
  constructor
  · rfl
  · simp


/-- C2 (amended): resolution yields `unauthorized` exactly when the session
lookup by broker access token fails (no matching session, or the matching
session expired); when a matching live session carries a (truthy) upstream
access token the bound upstream tokens are returned; but when the matching
live session has no upstream token bound the broker token itself is used
directly as the credential — never `unauthorized`. After a
`bindUpstreamTokens` call on the session, resolution returns exactly the
bound tokens. -/
theorem claim_C2 :
    (∀ (sessions : List (String × Session)) (bearer : String) (now : Int),
        (resolveCredential sessions bearer now).1 = .unauthorized ↔
          (getSessionByMcpToken sessions bearer now).1 = none) ∧
    (∀ (sessions : List (String × Session)) (bearer : String) (now : Int)
        (s : Session),
        (getSessionByMcpToken sessions bearer now).1 = some s →
        jsTruthyStr s.thirdPartyAccessToken →
        (resolveCredential sessions bearer now).1 =
          .upstreamCred (s.thirdPartyAccessToken.getD "")
            s.thirdPartyRefreshToken) ∧
    (∀ (sessions : List (String × Session)) (bearer : String) (now : Int)
        (s : Session),
        (getSessionByMcpToken sessions bearer now).1 = some s →
        ¬ jsTruthyStr s.thirdPartyAccessToken →
        (resolveCredential sessions bearer now).1 = .directMcpToken bearer) ∧
    (∀ (sid bearer ga : String) (s : Session) (r : Option String)
        (e : Option Int) (now : Int),
        s.mcpAccessToken = bearer → ¬(now > s.expiresAt) → ga ≠ "" →
        (resolveCredential
            (updateSessionWithThirdPartyTokens [(sid, s)] sid ga r e now).2
            bearer now).1 =
          .upstreamCred ga r) := by
  refine ⟨?_, ?_, ?_, ?_⟩
  · intro sessions bearer now
    rcases hm : getSessionByMcpToken sessions bearer now with ⟨o, sess2⟩
    cases o with
    | none => simp [resolveCredential, hm]
    | some s =>
        simp only [resolveCredential, hm]
        by_cases ht : jsTruthyStr s.thirdPartyAccessToken
        · simp [ht]
        · simp [ht]
  · intro sessions bearer now s hm ht
    rcases hp : getSessionByMcpToken sessions bearer now with ⟨o, sess2⟩
    rw [hp] at hm
    simp at hm
    subst hm
    simp [resolveCredential, hp, ht]
  · intro sessions bearer now s hm ht
    rcases hp : getSessionByMcpToken sessions bearer now with ⟨o, sess2⟩
    rw [hp] at hm
    simp at hm
    subst hm
    simp [resolveCredential, hp, ht]
  · intro sid bearer ga s r e now hb hexp hga
    simp [updateSessionWithThirdPartyTokens, mapGet, mapSet, List.find?,
      resolveCredential, getSessionByMcpToken, mapValues, hb, hexp,
      jsTruthyStr, hga]


/-- Witness for C2 at concrete inputs: an empty store resolves to
`unauthorized`; a session with bound tokens resolves to those tokens; and
binding tokens to an unbound session then resolving returns the bound
tokens. -/
theorem claim_C2_witness :
    ((resolveCredential [] "atok" 0).1 = .unauthorized ↔
      (getSessionByMcpToken [] "atok" 0).1 = none) ∧
    (resolveCredential [("sid1", cSessBound)] "atok" 0).1 =
      .upstreamCred (cSessBound.thirdPartyAccessToken.getD "")
        cSessBound.thirdPartyRefreshToken ∧
    (resolveCredential
        (updateSessionWithThirdPartyTokens [("sid1", cSessUnbound)] "sid1"
          "gat" (some "grt") (some 3600) 0).2 "atok" 0).1 =
      .upstreamCred "gat" (some "grt") := by
  refine ⟨claim_C2.1 [] "atok" 0, ?_, ?_⟩
  · exact claim_C2.2.1 [("sid1", cSessBound)] "atok" 0 cSessBound
      (by decide) (by decide)
  · exact claim_C2.2.2.2 "sid1" "atok" "gat" cSessUnbound (some "grt")
      (some 3600) 0 (by decide) (by decide) (by decide)


/-- Counterexample to claim C3: an authorize request with
`code_challenge_method=plain` by a registered client is NOT rejected by
`handleAuthorization` — it is answered with a 302 redirect to the upstream
IdP, and a PKCE challenge (auth state) IS stored; no
`unsupported_code_challenge_method` error exists anywhere on this path. -/
theorem claim_C3_counterexample :
    (handleAuthorization true [("c1", cClient)] cStoresEmpty cAreqPlain
        cFresh 100).1 = .redirectUpstream "stok" ∧
    (handleAuthorization true [("c1", cClient)] cStoresEmpty cAreqPlain
        cFresh 100).2.authStates =
      [("stok",
        { state := "stok", mcpClientId := "c1", redirectUri := "https://rp/cb"
          originalState := some "orig", codeVerifier := some "chal"
          createdAt := 100 })] := by
  constructor
  · rfl
  · rfl


/-- C3 (amended): the double-hop authorize handler performs no validation of
`code_challenge_method` at all — its entire outcome is independent of that
parameter, so `plain` is accepted and a challenge stored; the alternative
`OAuthController.authorize` DOES reject any method other than S256 with
HTTP 400 and stores no challenge, but with error code `invalid_request`
(description "Unsupported code challenge method"), not
`unsupported_code_challenge_method`. -/
theorem claim_C3 :
    (∀ (cfg : Bool) (clients : List (String × RegisteredClient)) (st : Stores)
        (req : AuthorizeRequest) (fresh : FreshAuth) (now : Int)
        (m1 m2 : Option String),
        handleAuthorization cfg clients st
            { req with codeChallengeMethod := m1 } fresh now =
          handleAuthorization cfg clients st
            { req with codeChallengeMethod := m2 } fresh now) ∧
    (∀ (pkce : List (String × PkceData)) (req : OCAuthorizeRequest)
        (er fu : String) (now : Int),
        jsTruthyStr req.clientId → jsTruthyStr req.redirectUri →
        jsTruthyStr req.codeChallenge → jsTruthyStr req.codeChallengeMethod →
        ¬(jsTruthyStr req.resource ∧ req.resource ≠ some er) →
        req.codeChallengeMethod ≠ some "S256" →
        ocAuthorize pkce req er fu now =
          (.err 400 "invalid_request" "Unsupported code challenge method",
            pkce)) := by
  constructor
  · intro cfg clients st req fresh now m1 m2
    rfl
  · intro pkce req er fu now h1 h2 h3 h4 h5 h6
    simp [ocAuthorize, h1, h2, h3, h4, h5, h6]


/-- Witness for C3 at concrete inputs: `OAuthController.authorize` with
`code_challenge_method=plain` answers 400 `invalid_request` and leaves the
PKCE store empty. -/
theorem claim_C3_witness :
    ocAuthorize [] cOCReqPlain "https://h/mcp" "uuid" 0 =
      (.err 400 "invalid_request" "Unsupported code challenge method", []) := by
  exact claim_C3.2 [] cOCReqPlain "https://h/mcp" "uuid" 0 (by decide)
    (by decide) (by decide) (by decide) (by decide) (by decide)


/-- Characterization of the MCP branch of `/auth/callback` on the success
path: the auth state is consumed, the upstream tokens are bound to the
session found by the client-id lookup, a broker authorization code keyed by
the fresh `mcpAuthCode` is stored, and the user agent is redirected to the
relying party's stored `redirectUri` with `code=mcpAuthCode` and
`state=originalState` when the relying party supplied one. -/
theorem authCallback_success_spec :
    ∀ (st : Stores) (req : CallbackRequest) (gt : GoogleTokens)
      (mcpAuthCode stok : String) (a : AuthState) (s : Session) (now : Int),
      ¬ jsTruthyStr req.error →
      jsTruthyStr req.code →
      req.state = some stok → stok ≠ "" →
      mapGet stok st.authStates = some a →
      ¬(now > a.createdAt + STATE_DURATION) →
      (mapValues st.sessions).find?
          (fun x => x.mcpClientId == a.mcpClientId) = some s →
      ¬(now > s.expiresAt) →
      authCallback st req (some gt) mcpAuthCode now =
        (.redirect a.redirectUri mcpAuthCode
            (if jsTruthyStr a.originalState then a.originalState else none),
          { st with
              authStates := mapDelete stok st.authStates
              sessions := (updateSessionWithThirdPartyTokens st.sessions
                s.sessionId gt.accessToken (jsOrUndefined gt.refreshToken)
                (some (if jsTruthyInt gt.expiryDate then
                  Int.fdiv ((gt.expiryDate.getD 0) - now) 1000 else 3600)) now).2
              authorizationCodes := createAuthorizationCode
                st.authorizationCodes mcpAuthCode a.mcpClientId
                s.sessionId now }) := by
  intro st req gt mcpAuthCode stok a s now herr hcode hst hne hmg hnexp hfind
    hsexp
  have hts : jsTruthyStr (some stok) = true := by simp [jsTruthyStr, hne]
  simp [authCallback, consumeAuthState, getSessionByClientId, herr, hcode,
    hst, hts, hmg, hnexp, hfind, hsexp]


/-- Counterexample to claim C4: the repository's other upstream-callback
implementation, `OAuthController.callback` (cited by the claim), redirects
the user agent with the UPSTREAM IdP's code ("gcode") and the broker-visible
state key ("stok") interpolated verbatim — it mints no broker authorization
code (the controller has no code store at all) and forwards neither a fresh
code nor the relying party's own original state. -/
theorem claim_C4_counterexample :
    ocCallback [("stok", cPkce0)] (some "gcode") (some "stok") true 1000 =
      (.redirect "https://rp/cb" "gcode" "stok", []) ∧
    OCCallbackResult.redirect "https://rp/cb" "gcode" "stok" ≠
      OCCallbackResult.redirect "https://rp/cb" "newcode" "orig" := by
  constructor
  · rfl
  · simp


/-- C4 (amended): the double-hop callback (`/auth/callback` of
`HttpServerTransport`) does, on every successful upstream callback, mint a
fresh one-time broker AuthorizationCode and redirect to the relying party's
stored redirect_uri with `code=<the fresh broker code>` and `state=<the
relying party's own original state>` when one was supplied (the `state`
parameter is omitted when the relying party supplied none); the legacy
`OAuthController.callback` instead forwards the upstream IdP's code and the
broker-visible state parameter unchanged and mints no broker code. -/
theorem claim_C4 :
    ∀ (st : Stores) (req : CallbackRequest) (gt : GoogleTokens)
      (mcpAuthCode stok : String) (a : AuthState) (s : Session) (now : Int),
      ¬ jsTruthyStr req.error →
      jsTruthyStr req.code →
      req.state = some stok → stok ≠ "" →
      mapGet stok st.authStates = some a →
      ¬(now > a.createdAt + STATE_DURATION) →
      (mapValues st.sessions).find?
          (fun x => x.mcpClientId == a.mcpClientId) = some s →
      ¬(now > s.expiresAt) →
      (authCallback st req (some gt) mcpAuthCode now).1 =
        .redirect a.redirectUri mcpAuthCode
          (if jsTruthyStr a.originalState then a.originalState else none) ∧
      mapGet mcpAuthCode
          (authCallback st req (some gt) mcpAuthCode now).2.authorizationCodes =
        some { code := mcpAuthCode, mcpClientId := a.mcpClientId
               sessionId := s.sessionId, createdAt := now } := by
  intro st req gt mcpAuthCode stok a s now herr hcode hst hne hmg hnexp hfind
    hsexp
  have h := authCallback_success_spec st req gt mcpAuthCode stok a s now herr
    hcode hst hne hmg hnexp hfind hsexp
  rw [h]
  exact ⟨rfl, by simp [createAuthorizationCode, mapGet_mapSet_same]⟩


/-- Witness for C4 at concrete inputs: the callback redirects to
`https://rp/cb` with the freshly minted broker code "newcode" — not the
upstream code "gcode" — and the relying party's original state "orig", and
stores the new one-time code bound to the session. -/
theorem claim_C4_witness :
    (authCallback cStCB cCbReq (some cGT) "newcode" 1000).1 =
      .redirect "https://rp/cb" "newcode" (some "orig") ∧
    mapGet "newcode"
        (authCallback cStCB cCbReq (some cGT) "newcode" 1000).2.authorizationCodes =
      some { code := "newcode", mcpClientId := "c1", sessionId := "sid1"
             createdAt := 1000 } := by
  have h := claim_C4 cStCB cCbReq cGT "newcode" "stok" cAuthState0
    cSessUnbound 1000 (by decide) (by decide) (by decide) (by decide)
    (by decide) (by decide) (by decide) (by decide)
  exact h


/-- Counterexample to claim C10: the client-id lookup does NOT return the
earliest-created non-expired session — with an expired first session and a
live second session for the same client it evicts the first and returns
none, even though a non-expired session for that client exists. -/
theorem claim_C10_counterexample :
    getSessionByClientId [("sA", cSessExpired), ("sB", cSessLive)] "c1" 100 =
      (none, [("sB", cSessLive)]) ∧
    cSessLive.mcpClientId = "c1" ∧ ¬((100 : Int) > cSessLive.expiresAt) := by
  refine ⟨rfl, rfl, by decide⟩


/-- C10 (amended): the client-id lookup returns the earliest-created
(first-inserted) session with that client id provided THAT session is
unexpired (an expired first match is evicted and none is returned, even if a
later live session exists); consequently, on a successful upstream callback
the upstream tokens and the minted authorization code are bound to the
session found by that lookup — when the same client has begun authorize
more than once without expiry, that is the session created by the first
authorize call, not necessarily the one created by the authorize call whose
flow is being completed. -/
theorem claim_C10 :
    (∀ (sessions : List (String × Session)) (cid : String) (now : Int)
        (s : Session),
        (mapValues sessions).find? (fun x => x.mcpClientId == cid) = some s →
        ¬(now > s.expiresAt) →
        getSessionByClientId sessions cid now = (some s, sessions)) ∧
    (∀ (st : Stores) (req : CallbackRequest) (gt : GoogleTokens)
        (mcpAuthCode stok : String) (a : AuthState) (s : Session) (now : Int),
        ¬ jsTruthyStr req.error →
        jsTruthyStr req.code →
        req.state = some stok → stok ≠ "" →
        mapGet stok st.authStates = some a →
        ¬(now > a.createdAt + STATE_DURATION) →
        (mapValues st.sessions).find?
            (fun x => x.mcpClientId == a.mcpClientId) = some s →
        ¬(now > s.expiresAt) →
        mapGet mcpAuthCode
            (authCallback st req (some gt) mcpAuthCode now).2.authorizationCodes =
          some { code := mcpAuthCode, mcpClientId := a.mcpClientId
                 sessionId := s.sessionId, createdAt := now } ∧
        (authCallback st req (some gt) mcpAuthCode now).2.sessions =
          (updateSessionWithThirdPartyTokens st.sessions s.sessionId
            gt.accessToken (jsOrUndefined gt.refreshToken)
            (some (if jsTruthyInt gt.expiryDate then
              Int.fdiv ((gt.expiryDate.getD 0) - now) 1000 else 3600)) now).2) := by
  constructor
  · intro sessions cid now s hfind hexp
    simp [getSessionByClientId, hfind, hexp]
  · intro st req gt mcpAuthCode stok a s now herr hcode hst hne hmg hnexp
      hfind hsexp
    have h := authCallback_success_spec st req gt mcpAuthCode stok a s now
      herr hcode hst hne hmg hnexp hfind hsexp
    rw [h]
    exact ⟨by simp [createAuthorizationCode, mapGet_mapSet_same], rfl⟩


/-- Witness for C10 at concrete inputs: with two live sessions for c1 in
creation order (sX then sY), the lookup returns the first (sX), and the
callback binds the upstream tokens and the minted code "newcode" to sX —
the session of the FIRST authorize call. -/
theorem claim_C10_witness :
    getSessionByClientId cStTwo.sessions "c1" 1000 =
      (some cSessFirst, cStTwo.sessions) ∧
    mapGet "newcode"
        (authCallback cStTwo cCbReq (some cGT) "newcode" 1000).2.authorizationCodes =
      some { code := "newcode", mcpClientId := "c1", sessionId := "sX"
             createdAt := 1000 } := by
  constructor
  · exact claim_C10.1 cStTwo.sessions "c1" 1000 cSessFirst (by decide)
      (by decide)
  · exact (claim_C10.2 cStTwo cCbReq cGT "newcode" "stok" cAuthState0
      cSessFirst 1000 (by decide) (by decide) (by decide) (by decide)
      (by decide) (by decide) (by decide) (by decide)).1

